import Mathlib

/-!
Formal model of MosaicWM's extended-canvas core
(`src/extension/extendedCanvas.js`) and of the per-window auxiliary state
store (`windowState.js`), together with theorems settling the specification
claims about them.

JavaScript numbers are modelled as exact rationals (`ℚ`); `Math.floor` and
`Math.round` become `Int.floor` and `round` (both `⌊q + 1/2⌋`-style, matching
JS semantics on rationals).  Stateful code (compositor actor mutation, the
scroll-offset field, the window-state WeakMap) is modelled by explicit state
passing.
-/

/-- Window spacing constant from `constants.js` (`WINDOW_SPACING = 8`). -/
def WINDOW_SPACING : ℚ := 8

/-- Modelled from the spec: the constant `CANVAS_EXPANSION_RATIO` is
referenced from the constants module but is missing from the provided
sources.  The spec fixes it as the canvas expansion factor
("fixed constant, e.g. 2.0", a 200% canvas), and the source comments in
`getEffectiveWorkArea` use exactly factor 2 (1280 → 2560). -/
def CANVAS_EXPANSION_RATIO : ℚ := 2

/-- Modelled from the spec: the constant `CANVAS_PAN_LEFT` is referenced from
the constants module but missing from the provided sources; the canvas
"extends 50% to the left" of the work area, so the pan ratio is 1/2. -/
def CANVAS_PAN_LEFT : ℚ := 1/2

/-- Modelled from the spec: the constant `CANVAS_PAN_RIGHT` is referenced
from the constants module but missing from the provided sources; the canvas
"extends 50% to the right" of the work area, so the pan ratio is 1/2. -/
def CANVAS_PAN_RIGHT : ℚ := 1/2

/-- Modelled from the spec: the constant `VIEWPORT_SCROLL_DURATION_MS` is
referenced from the constants module but missing from the provided sources;
the spec only calls it "a fixed duration constant", so we pick a
representative positive value in milliseconds. -/
def VIEWPORT_SCROLL_DURATION_MS : ℚ := 250

/-- A rectangle as used throughout `extendedCanvas.js` (frame rects, buffer
rects, work areas, target positions). -/
structure Rect where
  x : ℚ
  y : ℚ
  width : ℚ
  height : ℚ
deriving DecidableEq

/-- The viewport argument of `applyViewportClip`: `{ x, width }`. -/
structure Viewport where
  x : ℚ
  width : ℚ
deriving DecidableEq

/-- JavaScript `Math.floor`, kept inside the rationals. -/
def flr (q : ℚ) : ℚ := (⌊q⌋ : ℚ)

/-- JavaScript `Math.round` (`⌊q + 1/2⌋`), kept inside the rationals. -/
def rnd (q : ℚ) : ℚ := (round q : ℚ)

/-- `calculatePhase(windows, workArea)` from `extendedCanvas.js`.  The
`windows` argument may be null (`Option.none`); window descriptors are
modelled by their numeric `width` field (the claims quantify over windows
with numeric widths, i.e. the `typeof w.width === 'number'` branch of the
source's reduce). -/
def calculatePhase (windows : Option (List ℚ)) (workArea : Rect) : ℕ :=
  match windows with
  | none => 1
  | some ws =>
    if ws.length = 0 then 1
    else
      let totalWidth := ws.foldl (· + ·) 0
      let spacing := ((ws.length : ℚ) + 1) * WINDOW_SPACING
      let totalNeeded := totalWidth + spacing
      let workAreaWidth := workArea.width
      let canvasWidth := workAreaWidth * CANVAS_EXPANSION_RATIO
      if totalNeeded ≤ workAreaWidth then 1
      else if totalNeeded ≤ canvasWidth then 2
      else 3

/-- `getEffectiveWorkArea(workArea, phase)` from `extendedCanvas.js`. -/
def getEffectiveWorkArea (workArea : Rect) (phase : ℕ) : Rect :=
  if phase = 3 then workArea
  else if phase = 1 then workArea
  else
    let extraWidth := workArea.width * ( CANVAS_EXPANSION_RATIO - 1)
    let halfExtra := extraWidth / 2
    { x := workArea.x - halfExtra
      y := workArea.y
      width := workArea.width + extraWidth
      height := workArea.height }

/-- `_clampViewportX(x, workArea)` from `extendedCanvas.js`. -/
def clampViewportX (x : ℚ) (workArea : Rect) : ℚ :=
  let maxPanLeft := -(workArea.width * CANVAS_PAN_LEFT)
  let maxPanRight := workArea.width * CANVAS_PAN_RIGHT
  max maxPanLeft (min x maxPanRight)

/-- The manager-level scroll state touched by `scrollLeft`/`scrollRight`:
the `_scrollOffset` field plus a marker recording that `_requestRetile`
was invoked (the retile itself is delegated to the external tiler and does
not move windows here). -/
structure ScrollState where
  scrollOffset : ℚ
  retileRequested : Bool
deriving DecidableEq

/-- The fixed scroll step (`this._scrollStep = 20`). -/
def scrollStep : ℚ := 20

/-- `scrollLeft()` from `extendedCanvas.js`: subtract the step and request a
retile.  Note the source applies no clamping here. -/
def scrollLeft (s : ScrollState) : ScrollState :=
  { scrollOffset := s.scrollOffset - scrollStep, retileRequested := true }

/-- `scrollRight()` from `extendedCanvas.js`: add the step and request a
retile.  Note the source applies no clamping here. -/
def scrollRight (s : ScrollState) : ScrollState :=
  { scrollOffset := s.scrollOffset + scrollStep, retileRequested := true }

/-- The per-(workspace, monitor) canvas state fields used by scrolling. -/
structure CanvasStateL where
  workArea : Rect
  viewportX : ℚ
deriving DecidableEq

/-- The closure data captured by `scrollTo`'s `animateStep`: the start
offset, the delta to the (already clamped) target, and the clamped target
itself. -/
structure ScrollAnimData where
  startX : ℚ
  deltaX : ℚ
  targetX : ℚ
deriving DecidableEq

/-- The animation set-up performed by `scrollTo(targetX, state, true)`:
the target is clamped, and the closure captures `startX = state.viewportX`
and `deltaX = targetX - startX`. -/
def scrollToInit (targetX0 : ℚ) (st : CanvasStateL) : ScrollAnimData :=
  let targetX := clampViewportX targetX0 st.workArea
  { startX := st.viewportX, deltaX := targetX - st.viewportX, targetX := targetX }

/-- One invocation of `animateStep` inside `scrollTo`, at a given elapsed
time.  Returns the updated canvas state together with the animation handle
(`some ()` when another tick was scheduled, `none` when the animation
snapped to the target and cleared `_scrollAnimationId`). -/
def animateStep (anim : ScrollAnimData) (elapsed : ℚ) (st : CanvasStateL) :
    CanvasStateL × Option Unit :=
  let progress := min (elapsed / VIEWPORT_SCROLL_DURATION_MS) 1
  let eased := 1 - (1 - progress) * (1 - progress)
  let st1 := { st with viewportX := anim.startX + anim.deltaX * eased }
  if progress < 1 then (st1, some ())
  else ({ st1 with viewportX := anim.targetX }, none)

/-- Runs the tick sequence of a `scrollTo` animation: each list element is
the elapsed time observed at one `animateStep` invocation; ticking stops as
soon as a step snaps to the target (handle cleared). -/
def runTicks (anim : ScrollAnimData) : List ℚ → CanvasStateL → CanvasStateL × Option Unit
  | [], st => (st, some ())
  | e :: rest, st =>
    let r := animateStep anim e st
    if r.2.isSome then runTicks anim rest r.1 else r

/-- The mutable state of a compositor actor
(`metaWindow.get_compositor_private()`) that `applyViewportClip` reads and
writes: position, translation, clip (`none` = no clip, i.e. `remove_clip`),
and opacity. -/
structure ActorState where
  x : ℚ
  y : ℚ
  translationX : ℚ
  translationY : ℚ
  clip : Option (ℚ × ℚ × ℚ × ℚ)
  opacity : ℚ
deriving DecidableEq

/-- Result of `applyViewportClip` when the actor exists: the mutated actor
state, the returned frame position `{x, y}`, and the updated membership of
the window id in `_clippedWindows`. -/
structure ClipResult where
  actor : ActorState
  posX : ℚ
  posY : ℚ
  clipped : Bool
deriving DecidableEq

/-- `applyViewportClip(metaWindow, targetPos, viewport)` from
`extendedCanvas.js`, in the case where the compositor actor exists.  Inputs
beyond the source's arguments are the parts of the environment the source
reads: the actor state, the window's buffer and frame rects, the manager's
`_scrollOffset`, the stored position-correction fields
(`_mosaicPositionCorrectionX/Y`, 0 when absent via `|| 0`), and whether the
window id is currently in `_clippedWindows`. -/
def applyViewportClipActor (actor0 : ActorState) (bufferRect frameRect : Rect)
    (targetPos : Rect) (viewport : Viewport) (scrollOffset corrX corrY : ℚ)
    (clipped : Bool) : ClipResult :=
  -- force opacity to 255
  let actor1 := if actor0.opacity ≠ 255 then { actor0 with opacity := 255 } else actor0
  let offsetX := frameRect.x - bufferRect.x
  let offsetY := frameRect.y - bufferRect.y
  -- sync block: force actor to match logical frame position
  let expectedActorX := bufferRect.x
  let expectedActorY := bufferRect.y
  let currentActorX := rnd actor1.x
  let currentActorY := rnd actor1.y
  let visualX := currentActorX + rnd actor1.translationX
  let visualY := currentActorY + rnd actor1.translationY
  let actor2 :=
    if 1 < |visualX - expectedActorX| ∨ 1 < |visualY - expectedActorY| then
      { actor1 with translationX := 0, translationY := 0,
                    x := expectedActorX, y := expectedActorY }
    else actor1
  -- round target and viewport
  let targetFrameLeft := flr (targetPos.x + scrollOffset)
  let targetFrameRight := targetFrameLeft + flr targetPos.width
  let viewportLeft := flr viewport.x
  let viewportRight := flr (viewport.x + viewport.width)
  -- clamp left only
  let clampedFrameX := if targetFrameLeft < viewportLeft then viewportLeft else targetFrameLeft
  let translationX := targetFrameLeft - clampedFrameX
  if translationX = 0 ∧ targetFrameRight ≤ viewportRight then
    -- fully visible: clear clip and translation, resync actor position
    let actor3 := { actor2 with clip := none, translationX := 0, translationY := 0 }
    let correctActorX := frameRect.x - offsetX
    let correctActorY := frameRect.y - offsetY
    let actor4 :=
      if 1 < |actor3.x - correctActorX| ∨ 1 < |actor3.y - correctActorY| then
        { actor3 with x := correctActorX, y := correctActorY }
      else actor3
    { actor := actor4, posX := targetFrameLeft, posY := targetPos.y, clipped := false }
  else
    -- actor-space clip calculation
    let logicalActorX := clampedFrameX - offsetX
    let visualActorX := logicalActorX + translationX
    let actorWidth := bufferRect.width
    let actorHeight := bufferRect.height
    let visibleLeft := max visualActorX viewportLeft
    let visibleRight := min (visualActorX + actorWidth) viewportRight
    let clipX := flr (max 0 (visibleLeft - visualActorX))
    let clipWidth := flr (min (visibleRight - visibleLeft) (actorWidth - clipX))
    let actor3 :=
      if clipWidth ≤ 0 then { actor2 with clip := some (0, 0, 0, 0) }
      else if actorWidth ≤ clipWidth ∧ clipX = 0 then { actor2 with clip := none }
      else { actor2 with clip := some (clipX, 0, clipWidth, actorHeight) }
    let clipped1 :=
      if clipWidth ≤ 0 then clipped
      else if actorWidth ≤ clipWidth ∧ clipX = 0 then clipped
      else true
    -- force actor to correct base position
    let actor4 :=
      if 1 < |actor3.x - bufferRect.x| ∨ 1 < |actor3.y - bufferRect.y| then
        { actor3 with x := bufferRect.x, y := bufferRect.y }
      else actor3
    -- apply translation including stored position correction
    let actor5 := { actor4 with translationX := translationX + corrX, translationY := corrY }
    { actor := actor5, posX := clampedFrameX, posY := targetPos.y, clipped := clipped1 }

/-- `applyViewportClip` including the missing-actor early return, which
returns the raw target position and changes nothing. -/
def applyViewportClip (actorOpt : Option ActorState) (bufferRect frameRect : Rect)
    (targetPos : Rect) (viewport : Viewport) (scrollOffset corrX corrY : ℚ)
    (clipped : Bool) : Option ActorState × (ℚ × ℚ) × Bool :=
  match actorOpt with
  | none => (none, (targetPos.x, targetPos.y), clipped)
  | some a =>
    let r := applyViewportClipActor a bufferRect frameRect targetPos viewport
      scrollOffset corrX corrY clipped
    (some r.actor, (r.posX, r.posY), r.clipped)

/-- The positioning step of `updateWindowPositions` (controlPositioning =
true) for a single window with a known target position: computes the
adjusted (left-clamped) requested x, issues the move request, observes
`frameAfter = metaWindow.get_frame_rect()` (supplied by the environment),
and stores the fresh position correction, overwriting any previous one
(`prevCorr`, which the step never reads).  Returns the requested x together
with the stored correction pair. -/
def updateWindowPositionsStep (targetPos : Rect) (viewport : Viewport)
    (scrollOffset : ℚ) (frameAfter : Rect) (prevCorr : ℚ × ℚ) : ℚ × (ℚ × ℚ) :=
  let targetFrameLeft := flr (targetPos.x + scrollOffset)
  let viewportLeft := flr viewport.x
  let adjustedX := if targetFrameLeft < viewportLeft then viewportLeft else targetFrameLeft
  let positionDeltaX := adjustedX - frameAfter.x
  let positionDeltaY := flr targetPos.y - frameAfter.y
  let corr :=
    if 2 < |positionDeltaX| ∨ 2 < |positionDeltaY| then (positionDeltaX, positionDeltaY)
    else ((0 : ℚ), (0 : ℚ))
  (adjustedX, corr)

namespace WindowState

/-- A JavaScript value stored in a window's state bag; `none` models the
value `undefined`. -/
abbrev JSValue := Option ℕ

/-- A window's property bag (a JS object): property name → stored value,
`none` when the property is absent.  A present property may itself hold the
value `undefined` (`some none`). -/
abbrev Bag := ℕ → Option JSValue

/-- The `windowStates` WeakMap from `windowState.js`: window identity →
optional property bag. -/
abbrev Store := ℕ → Option Bag

/-- The initial state: no window has any recorded state. -/
def emptyStore : Store := fun _ => none

/-- `get(window, property)` from `windowState.js`: `state ? state[property]
: undefined`. -/
def get (s : Store) (w p : ℕ) : JSValue :=
  match s w with
  | none => none
  | some bag =>
    match bag p with
    | none => none
    | some v => v

/-- `set(window, property, value)` from `windowState.js`: creates the state
object lazily, then assigns the property. -/
def set (s : Store) (w p : ℕ) (v : JSValue) : Store :=
  let state : Bag :=
    match s w with
    | none => fun _ => none
    | some bag => bag
  fun w' => if w' = w then some (fun p' => if p' = p then some v else state p') else s w'

/-- `has(window, property)` from `windowState.js`: `state ? property in
state : false`. -/
def has (s : Store) (w p : ℕ) : Bool :=
  match s w with
  | none => false
  | some bag => (bag p).isSome

/-- `remove(window, property)` from `windowState.js`: deletes the property
from the bag when the bag exists. -/
def remove (s : Store) (w p : ℕ) : Store :=
  match s w with
  | none => s
  | some bag => fun w' => if w' = w then some (fun p' => if p' = p then none else bag p') else s w'

/-- `clear(window)` from `windowState.js`: `windowStates.delete(window)`. -/
def clear (s : Store) (w : ℕ) : Store :=
  fun w' => if w' = w then none else s w'

end WindowState

/-- `isWindowFullyVisible(metaWindow)` from `extendedCanvas.js`.  The
window argument is `none` for a null window, otherwise its frame rect; the
work area and the canvas state's `viewportX` are environment inputs. -/
def isWindowFullyVisible (mw : Option Rect) (workArea : Rect) (viewportX : ℚ) : Bool :=
  match mw with
  | none => false
  | some windowFrame =>
    let windowLeft := windowFrame.x
    let windowRight := windowFrame.x + windowFrame.width
    let viewportLeft := workArea.x + viewportX
    let viewportRight := viewportLeft + workArea.width
    decide (viewportLeft ≤ windowLeft ∧ windowRight ≤ viewportRight)

/-- `isWindowPartiallyVisible(metaWindow)` from `extendedCanvas.js`. -/
def isWindowPartiallyVisible (mw : Option Rect) (workArea : Rect) (viewportX : ℚ) : Bool :=
  match mw with
  | none => false
  | some windowFrame =>
    let windowLeft := windowFrame.x
    let windowRight := windowFrame.x + windowFrame.width
    let viewportLeft := workArea.x + viewportX
    let viewportRight := viewportLeft + workArea.width
    let overlaps := decide (windowLeft < viewportRight ∧ windowRight > viewportLeft)
    let fullyInside := decide (windowLeft ≥ viewportLeft ∧ windowRight ≤ viewportRight)
    overlaps && !fullyInside

theorem list_foldl_add_eq_sum (l : List ℚ) (a : ℚ) : l.foldl (· + ·) a = a + l.sum := by
  induction l generalizing a with
  | nil => simp
  | cons x xs ih => simp only [List.foldl_cons, List.sum_cons, ih]; ring

theorem list_sum_le_of_forall2 {l l' : List ℚ} (h : List.Forall₂ (· ≤ ·) l l') :
    l.sum ≤ l'.sum := by
  induction h with
  | nil => simp
  | cons hx _ ih => simp only [List.sum_cons]; exact add_le_add hx ih

/-- C5: `calculatePhase` returns PHASE_1 for an empty or missing window
sequence; on a non-empty sequence it compares `sum + (count+1) *
WINDOW_SPACING` against the work-area width and the expanded canvas width;
the result is invariant under permutation of the widths and never moves
backward when widths increase pointwise. -/
theorem C5_calculatePhase_spec (ws ws' : List ℚ) (workArea : Rect) :
    calculatePhase none workArea = 1 ∧
    calculatePhase (some []) workArea = 1 ∧
    (ws ≠ [] →
      calculatePhase (some ws) workArea =
        if ws.sum + ((ws.length : ℚ) + 1) * WINDOW_SPACING ≤ workArea.width then 1
        else if ws.sum + ((ws.length : ℚ) + 1) * WINDOW_SPACING ≤
            workArea.width * CANVAS_EXPANSION_RATIO then 2
        else 3) ∧
    (ws.Perm ws' → calculatePhase (some ws) workArea = calculatePhase (some ws') workArea) ∧
    (List.Forall₂ (· ≤ ·) ws ws' →
      calculatePhase (some ws) workArea ≤ calculatePhase (some ws') workArea) := by
  refine ⟨rfl, rfl, ?_, ?_, ?_⟩
  · intro hne
    have hlen : ¬ ws.length = 0 := by simpa [List.length_eq_zero] using hne
    simp only [calculatePhase, hlen, if_false, list_foldl_add_eq_sum, zero_add]
  · intro hperm
    simp only [calculatePhase, list_foldl_add_eq_sum, zero_add, hperm.length_eq,
      hperm.sum_eq]
  · intro hle
    have hlen : ws.length = ws'.length := hle.length_eq
    have hsum : ws.sum ≤ ws'.sum := list_sum_le_of_forall2 hle
    simp only [calculatePhase, list_foldl_add_eq_sum, zero_add, hlen]
    split_ifs <;> (try norm_num) <;> linarith

/-- C5 witness: the spec scenario — three windows of width 500 on a
1280-wide work area give total 1532, which exceeds 1280 but fits the
2560-wide canvas, so the phase is PHASE_2. -/
theorem C5_witness :
    calculatePhase (some [(500 : ℚ), 500, 500]) ⟨0, 0, 1280, 720⟩ = 2 := by
  rw [(C5_calculatePhase_spec [(500 : ℚ), 500, 500] [(500 : ℚ), 500, 500]
    ⟨0, 0, 1280, 720⟩).2.2.1 (by decide)]
  norm_num [WINDOW_SPACING, CANVAS_EXPANSION_RATIO]

/-- C6: `getEffectiveWorkArea` returns the work area unchanged in PHASE_1
and PHASE_3 and expands it symmetrically in PHASE_2, preserving the
horizontal center exactly. -/
theorem C6_getEffectiveWorkArea_spec (workArea : Rect) :
    getEffectiveWorkArea workArea 1 = workArea ∧
    getEffectiveWorkArea workArea 3 = workArea ∧
    (getEffectiveWorkArea workArea 2).x
      = workArea.x - workArea.width * ( CANVAS_EXPANSION_RATIO - 1) / 2 ∧
    (getEffectiveWorkArea workArea 2).width
      = workArea.width + workArea.width * ( CANVAS_EXPANSION_RATIO - 1) ∧
    (getEffectiveWorkArea workArea 2).y = workArea.y ∧
    (getEffectiveWorkArea workArea 2).height = workArea.height ∧
    (getEffectiveWorkArea workArea 2).x + (getEffectiveWorkArea workArea 2).width / 2
      = workArea.x + workArea.width / 2 := by
  refine ⟨rfl, rfl, ?_, ?_, rfl, rfl, ?_⟩ <;> simp [getEffectiveWorkArea] <;> ring

/-- C7: the viewport clamp is idempotent for every input and work area, and
for a work area of non-negative width its output always lies within
the pan limits. -/
theorem C7_clampViewportX_spec (x : ℚ) (workArea : Rect) :
    clampViewportX (clampViewportX x workArea) workArea = clampViewportX x workArea ∧
    (0 ≤ workArea.width →
      -(workArea.width * CANVAS_PAN_LEFT) ≤ clampViewportX x workArea ∧
        clampViewportX x workArea ≤ workArea.width * CANVAS_PAN_RIGHT) := by
  refine ⟨?_, fun hw => ⟨?_, ?_⟩⟩ <;>
    simp only [clampViewportX, max_def, min_def, CANVAS_PAN_LEFT, CANVAS_PAN_RIGHT] <;>
    split_ifs <;> linarith

/-- C7 witness: clamping 1000 on a 1280-wide work area stays within the pan
limits [-640, 640]. -/
theorem C7_witness :
    -((1280 : ℚ) * CANVAS_PAN_LEFT) ≤ clampViewportX 1000 ⟨0, 0, 1280, 720⟩ ∧
      clampViewportX 1000 ⟨0, 0, 1280, 720⟩ ≤ (1280 : ℚ) * CANVAS_PAN_RIGHT :=
  (C7_clampViewportX_spec 1000 ⟨0, 0, 1280, 720⟩).2 (by norm_num)

/-- C9: in the window-state store, a window with no recorded state behaves
exactly like one with an empty bag — every read on the fresh store or after
`clear` reports absence — and `set`, `remove` and `clear` on one window never
change what `get`/`has` observe on a different window. -/
theorem C9_windowState_spec (s : WindowState.Store) (w w' p p' : ℕ)
    (v : WindowState.JSValue) (hne : w ≠ w') :
    (WindowState.get WindowState.emptyStore w p = none ∧
      WindowState.has WindowState.emptyStore w p = false) ∧
    (WindowState.get (WindowState.clear s w) w p = none ∧
      WindowState.has (WindowState.clear s w) w p = false) ∧
    (WindowState.get (WindowState.set s w p v) w' p' = WindowState.get s w' p' ∧
      WindowState.has (WindowState.set s w p v) w' p' = WindowState.has s w' p' ∧
      WindowState.get (WindowState.remove s w p) w' p' = WindowState.get s w' p' ∧
      WindowState.has (WindowState.remove s w p) w' p' = WindowState.has s w' p' ∧
      WindowState.get (WindowState.clear s w) w' p' = WindowState.get s w' p' ∧
      WindowState.has (WindowState.clear s w) w' p' = WindowState.has s w' p') := by
  have hne' : w' ≠ w := Ne.symm hne
  refine ⟨⟨rfl, rfl⟩, ⟨?_, ?_⟩, ?_, ?_, ?_, ?_, ?_, ?_⟩ <;>
    simp only [WindowState.get, WindowState.has, WindowState.set, WindowState.remove,
      WindowState.clear, WindowState.emptyStore] <;>
    (try cases hsw : s w) <;>
    simp_all [hne']

/-- C9 witness: setting a property on window 1 leaves window 2 unobserved
(its read still reports absence on the empty store). -/
theorem C9_witness :
    WindowState.get (WindowState.set WindowState.emptyStore 1 0 (some 5)) 2 0 = none := by
  have h := (C9_windowState_spec WindowState.emptyStore 1 2 0 0 (some 5) (by decide)).2.2.1
  simpa [WindowState.get, WindowState.emptyStore] using h

/-- C10: the two visibility predicates are computed from the same frame and
viewport bounds and are never simultaneously true; both are false for a null
window; and partial visibility holds exactly when the window's horizontal
extent overlaps the viewport without being fully inside it. -/
theorem C10_visibility_spec (mw : Option Rect) (workArea : Rect) (viewportX : ℚ) :
    (isWindowFullyVisible mw workArea viewportX &&
      isWindowPartiallyVisible mw workArea viewportX) = false ∧
    isWindowFullyVisible none workArea viewportX = false ∧
    isWindowPartiallyVisible none workArea viewportX = false ∧
    (∀ windowFrame : Rect,
      isWindowPartiallyVisible (some windowFrame) workArea viewportX = true ↔
        ((windowFrame.x < workArea.x + viewportX + workArea.width ∧
          workArea.x + viewportX < windowFrame.x + windowFrame.width) ∧
         ¬(workArea.x + viewportX ≤ windowFrame.x ∧
           windowFrame.x + windowFrame.width ≤ workArea.x + viewportX + workArea.width))) := by
  refine ⟨?_, rfl, rfl, ?_⟩
  · cases mw with
    | none => rfl
    | some f =>
      simp only [isWindowFullyVisible, isWindowPartiallyVisible, ge_iff_le, gt_iff_lt]
      by_cases h : workArea.x + viewportX ≤ f.x ∧ f.x + f.width ≤ workArea.x + viewportX + workArea.width <;>
        simp [h]
  · intro f
    simp only [isWindowPartiallyVisible, ge_iff_le, gt_iff_lt, Bool.and_eq_true,
      Bool.not_eq_true', decide_eq_true_eq, decide_eq_false_iff_not]

/-- C4 counterexample: the fixed-step scrolls apply no clamping.  From
stored offset 640 — exactly the pan-right limit of a 1280-wide work area —
one further `scrollRight` yields 660, outside the clamp bounds (clamping 660
would give 640); reachable from offset 0 by 33 `scrollRight` calls. -/
theorem C4_counterexample :
    (scrollRight ⟨640, false⟩).scrollOffset = 660 ∧
    (scrollRight^[33] ⟨0, false⟩).scrollOffset = 660 ∧
    clampViewportX 660 ⟨0, 0, 1280, 720⟩ = 640 ∧
    ¬(660 : ℚ) ≤ (1280 : ℚ) * CANVAS_PAN_RIGHT := by
  refine ⟨by norm_num [scrollRight, scrollStep], ?_, ?_, by norm_num [CANVAS_PAN_RIGHT]⟩
  · norm_num [Function.iterate_succ_apply, Function.iterate_zero_apply, scrollRight, scrollStep]
  · simp only [clampViewportX, CANVAS_PAN_LEFT, CANVAS_PAN_RIGHT, max_def, min_def]
    norm_num

/-- C4 amended: each fixed-step scroll adjusts the stored offset by the
fixed step of 20 pixels with no clamping, and triggers a retile request
without itself moving windows; two `scrollRight` calls starting from offset
0 leave the offset at 40. -/
theorem C4_scrollStep_spec (s : ScrollState) :
    (scrollRight s).scrollOffset = s.scrollOffset + scrollStep ∧
    (scrollLeft s).scrollOffset = s.scrollOffset - scrollStep ∧
    (scrollRight s).retileRequested = true ∧
    (scrollLeft s).retileRequested = true ∧
    (scrollRight (scrollRight ⟨0, false⟩)).scrollOffset = 40 := by
  exact ⟨rfl, rfl, rfl, rfl, by norm_num [scrollRight, scrollStep]⟩

theorem runTicks_complete (anim : ScrollAnimData) (ticks : List ℚ) (st : CanvasStateL)
    (hc : ∃ e ∈ ticks, VIEWPORT_SCROLL_DURATION_MS ≤ e) :
    (runTicks anim ticks st).1.viewportX = anim.targetX ∧
      (runTicks anim ticks st).2 = none := by
  induction ticks generalizing st with
  | nil => simp at hc
  | cons e rest ih =>
    by_cases he : e < VIEWPORT_SCROLL_DURATION_MS
    · have hprog : min (e / VIEWPORT_SCROLL_DURATION_MS) 1 < 1 := by
        have hdur : (0 : ℚ) < VIEWPORT_SCROLL_DURATION_MS := by
          norm_num [VIEWPORT_SCROLL_DURATION_MS]
        have : e / VIEWPORT_SCROLL_DURATION_MS < 1 := by
          rw [div_lt_one hdur]; exact he
        exact min_lt_of_left_lt this
      have hrest : ∃ x ∈ rest, VIEWPORT_SCROLL_DURATION_MS ≤ x := by
        rcases hc with ⟨x, hx, hxle⟩
        rcases List.mem_cons.mp hx with rfl | hx'
        · exact absurd hxle (not_le.mpr he)
        · exact ⟨x, hx', hxle⟩
      simp only [runTicks, animateStep, if_pos hprog, Option.isSome_some, if_true]
      exact ih _ hrest
    · have hdur : (0 : ℚ) < VIEWPORT_SCROLL_DURATION_MS := by
        norm_num [VIEWPORT_SCROLL_DURATION_MS]
      have h1 : (1 : ℚ) ≤ e / VIEWPORT_SCROLL_DURATION_MS := by
        rw [le_div_iff₀ hdur]; linarith [not_lt.mp he]
      have hprog : ¬ min (e / VIEWPORT_SCROLL_DURATION_MS) 1 < 1 :=
        not_lt.mpr (le_min h1 le_rfl)
      have hlt : ¬ e / VIEWPORT_SCROLL_DURATION_MS < 1 := not_lt.mpr h1
      simp [runTicks, animateStep, hprog, hlt]

/-- C8: a `scrollTo(target, state, animate=true)` whose tick sequence runs
to completion (some tick's elapsed time reaches the scroll duration, so
progress reaches 1) ends with the stored viewport offset exactly equal to
the clamped target — the last step snaps to the clamped target — and the
animation handle cleared, regardless of the starting offset. -/
theorem C8_scrollTo_convergence (targetX0 : ℚ) (st0 st : CanvasStateL) (ticks : List ℚ)
    (hc : ∃ e ∈ ticks, VIEWPORT_SCROLL_DURATION_MS ≤ e) :
    (runTicks (scrollToInit targetX0 st0) ticks st).1.viewportX
        = clampViewportX targetX0 st0.workArea ∧
    (runTicks (scrollToInit targetX0 st0) ticks st).2 = none := by
  have h := runTicks_complete (scrollToInit targetX0 st0) ticks st hc
  exact ⟨by rw [h.1]; rfl, h.2⟩

/-- C8 witness: scrolling toward 10000 on a 1280-wide work area with ticks
at 16 ms and 300 ms (the second past the duration) ends exactly at clamped
target 640 with the handle cleared. -/
theorem C8_witness :
    (runTicks (scrollToInit 10000 ⟨⟨0, 0, 1280, 720⟩, 0⟩) [16, 300]
        ⟨⟨0, 0, 1280, 720⟩, 0⟩).1.viewportX
      = clampViewportX 10000 (⟨⟨0, 0, 1280, 720⟩, 0⟩ : CanvasStateL).workArea ∧
    (runTicks (scrollToInit 10000 ⟨⟨0, 0, 1280, 720⟩, 0⟩) [16, 300]
        ⟨⟨0, 0, 1280, 720⟩, 0⟩).2 = none :=
  C8_scrollTo_convergence 10000 ⟨⟨0, 0, 1280, 720⟩, 0⟩ ⟨⟨0, 0, 1280, 720⟩, 0⟩ [16, 300]
    ⟨300, by simp, by norm_num [VIEWPORT_SCROLL_DURATION_MS]⟩

/-- C3 counterexample: the code measures the y-axis discrepancy against the
floored target y, not the requested y.  With target y = 1/2 (requested y of
the move), observed frame y = 10, the stored correction is (0, ⌊1/2⌋ - 10) =
(0, -10), while requested-minus-actual is (0 - 0, 1/2 - 10) = (0, -19/2), so
the stored correction is not the requested position minus the actual
resulting frame position. -/
theorem C3_counterexample :
    (updateWindowPositionsStep ⟨0, 1/2, 100, 100⟩ ⟨0, 1000⟩ 0 ⟨0, 10, 100, 100⟩ (0, 0)).2
        = (0, -10) ∧
    ¬(updateWindowPositionsStep ⟨0, 1/2, 100, 100⟩ ⟨0, 1000⟩ 0 ⟨0, 10, 100, 100⟩ (0, 0)).2
        = ((0 : ℚ) - 0, (1/2 : ℚ) - 10) := by
  constructor
  · norm_num [updateWindowPositionsStep, flr]
  · norm_num [updateWindowPositionsStep, flr]

/-- C3 amended: after each positioning step, the stored correction is
exactly zero on both axes when the observed frame matches the requested x
and the floored target y within 2 pixels on each axis; otherwise it equals
(requested x - actual x, floored target y - actual y), recomputed fresh from
the live discrepancy, independent of any previously stored correction. -/
theorem C3_positionCorrection_spec (targetPos : Rect) (viewport : Viewport)
    (scrollOffset : ℚ) (frameAfter : Rect) (prevCorr : ℚ × ℚ) :
    ((|(updateWindowPositionsStep targetPos viewport scrollOffset frameAfter prevCorr).1
          - frameAfter.x| ≤ 2 ∧ |flr targetPos.y - frameAfter.y| ≤ 2) →
      (updateWindowPositionsStep targetPos viewport scrollOffset frameAfter prevCorr).2
        = (0, 0)) ∧
    (¬(|(updateWindowPositionsStep targetPos viewport scrollOffset frameAfter prevCorr).1
          - frameAfter.x| ≤ 2 ∧ |flr targetPos.y - frameAfter.y| ≤ 2) →
      (updateWindowPositionsStep targetPos viewport scrollOffset frameAfter prevCorr).2
        = ((updateWindowPositionsStep targetPos viewport scrollOffset frameAfter prevCorr).1
            - frameAfter.x, flr targetPos.y - frameAfter.y)) ∧
    updateWindowPositionsStep targetPos viewport scrollOffset frameAfter prevCorr
      = updateWindowPositionsStep targetPos viewport scrollOffset frameAfter (0, 0) := by
  refine ⟨?_, ?_, rfl⟩
  · simp only [updateWindowPositionsStep]
    set A := if flr (targetPos.x + scrollOffset) < flr viewport.x then flr viewport.x
      else flr (targetPos.x + scrollOffset) with hA
    intro h
    split_ifs with hc
    · exfalso
      rcases hc with hx | hy
      · exact absurd h.1 (not_le.mpr hx)
      · exact absurd h.2 (not_le.mpr hy)
    · rfl
  · simp only [updateWindowPositionsStep]
    set A := if flr (targetPos.x + scrollOffset) < flr viewport.x then flr viewport.x
      else flr (targetPos.x + scrollOffset) with hA
    intro h
    split_ifs with hc
    · rfl
    · exfalso
      push_neg at hc
      exact h hc

/-- C3 witness: a move honoured exactly (frame after equals the requested
position) stores a correction of exactly zero, overwriting the previously
stored correction (9, 9). -/
theorem C3_witness :
    (updateWindowPositionsStep ⟨5, 7, 100, 100⟩ ⟨0, 1000⟩ 0 ⟨5, 7, 100, 100⟩ (9, 9)).2
      = (0, 0) :=
  (C3_positionCorrection_spec ⟨5, 7, 100, 100⟩ ⟨0, 1000⟩ 0 ⟨5, 7, 100, 100⟩ (9, 9)).1
    (by norm_num [updateWindowPositionsStep, flr])

theorem applyViewportClipActor_posX (actor0 : ActorState) (bufferRect frameRect : Rect)
    (targetPos : Rect) (viewport : Viewport) (scrollOffset corrX corrY : ℚ)
    (clipped : Bool) :
    (applyViewportClipActor actor0 bufferRect frameRect targetPos viewport
        scrollOffset corrX corrY clipped).posX
      = max (flr (targetPos.x + scrollOffset)) (flr viewport.x) := by
  simp only [applyViewportClipActor]
  by_cases hlt : flr (targetPos.x + scrollOffset) < flr viewport.x
  · simp only [if_pos hlt]
    have hne : ¬(flr (targetPos.x + scrollOffset) - flr viewport.x = 0 ∧
        flr (targetPos.x + scrollOffset) + flr targetPos.width
          ≤ flr (viewport.x + viewport.width)) := by
      intro h
      have := h.1
      linarith
    rw [if_neg hne]
    exact (max_eq_right (le_of_lt hlt)).symm
  · simp only [if_neg hlt, sub_self]
    have hmax : max (flr (targetPos.x + scrollOffset)) (flr viewport.x)
        = flr (targetPos.x + scrollOffset) := max_eq_left (not_lt.mp hlt)
    rw [hmax]
    split_ifs <;> rfl

/-- C2: when the compositor actor exists, the returned frame position's x is
never less than the floored viewport left edge: it is clamped to the
viewport's left edge exactly when the offset-adjusted target left edge lies
before it, and otherwise — including any right-edge overflow — the target
left edge is returned unchanged, so no clamping is ever applied at the right
edge. -/
theorem C2_applyViewportClip_leftClamp (actor0 : ActorState) (bufferRect frameRect : Rect)
    (targetPos : Rect) (viewport : Viewport) (scrollOffset corrX corrY : ℚ)
    (clipped : Bool) :
    flr viewport.x ≤ (applyViewportClipActor actor0 bufferRect frameRect targetPos
        viewport scrollOffset corrX corrY clipped).posX ∧
    (flr (targetPos.x + scrollOffset) < flr viewport.x →
      (applyViewportClipActor actor0 bufferRect frameRect targetPos viewport
          scrollOffset corrX corrY clipped).posX = flr viewport.x) ∧
    (flr viewport.x ≤ flr (targetPos.x + scrollOffset) →
      (applyViewportClipActor actor0 bufferRect frameRect targetPos viewport
          scrollOffset corrX corrY clipped).posX = flr (targetPos.x + scrollOffset)) := by
  have h := applyViewportClipActor_posX actor0 bufferRect frameRect targetPos viewport
    scrollOffset corrX corrY clipped
  refine ⟨?_, fun hlt => ?_, fun hle => ?_⟩ <;> rw [h]
  · exact le_max_right _ _
  · exact max_eq_right (le_of_lt hlt)
  · exact max_eq_left hle

/-- C2 witness: a target whose left edge lies 300 px left of the viewport is
returned clamped to the viewport's left edge. -/
theorem C2_witness :
    (applyViewportClipActor ⟨0, 0, 0, 0, none, 255⟩ ⟨0, 0, 400, 300⟩ ⟨0, 0, 400, 300⟩
        ⟨-300, 0, 400, 300⟩ ⟨0, 1280⟩ 0 0 0 false).posX = flr ((0 : ℚ)) :=
  (C2_applyViewportClip_leftClamp ⟨0, 0, 0, 0, none, 255⟩ ⟨0, 0, 400, 300⟩ ⟨0, 0, 400, 300⟩
      ⟨-300, 0, 400, 300⟩ ⟨0, 1280⟩ 0 0 0 false).2.1 (by norm_num [flr])

/-- C1: with scroll offset 0 and the target rect fully inside the viewport —
the computed translation is 0 (floored target left not before the floored
viewport left) and the floored right edge is at or before the floored
viewport right edge — applyViewportClip clears any existing clip, sets the
translation to exactly zero on both axes, and returns the floored target x
together with the unmodified target y. -/
theorem C1_applyViewportClip_noop (actor0 : ActorState) (bufferRect frameRect : Rect)
    (targetPos : Rect) (viewport : Viewport) (corrX corrY : ℚ) (clipped : Bool)
    (hleft : flr viewport.x ≤ flr targetPos.x)
    (hright : flr targetPos.x + flr targetPos.width ≤ flr (viewport.x + viewport.width)) :
    (applyViewportClipActor actor0 bufferRect frameRect targetPos viewport
        0 corrX corrY clipped).actor.clip = none ∧
    (applyViewportClipActor actor0 bufferRect frameRect targetPos viewport
        0 corrX corrY clipped).actor.translationX = 0 ∧
    (applyViewportClipActor actor0 bufferRect frameRect targetPos viewport
        0 corrX corrY clipped).actor.translationY = 0 ∧
    (applyViewportClipActor actor0 bufferRect frameRect targetPos viewport
        0 corrX corrY clipped).posX = flr targetPos.x ∧
    (applyViewportClipActor actor0 bufferRect frameRect targetPos viewport
        0 corrX corrY clipped).posY = targetPos.y := by
  simp only [applyViewportClipActor, add_zero]
  have hnlt : ¬ flr targetPos.x < flr viewport.x := not_lt.mpr hleft
  simp only [if_neg hnlt, sub_self]
  have hcond : True ∧ flr targetPos.x + flr targetPos.width
      ≤ flr (viewport.x + viewport.width) := ⟨trivial, hright⟩
  rw [if_pos hcond]
  refine ⟨?_, ?_, ?_, rfl, rfl⟩ <;> split_ifs <;> rfl

/-- C1 witness: a 400-wide target at x = 100 inside a 1280-wide viewport at
offset 0 gets its clip cleared, translation zeroed and position (100, 50)
returned. -/
theorem C1_witness :
    (applyViewportClipActor ⟨95, 45, 0, 0, some (1, 2, 3, 4), 255⟩ ⟨95, 45, 410, 310⟩
        ⟨100, 50, 400, 300⟩ ⟨100, 50, 400, 300⟩ ⟨0, 1280⟩ 0 0 0 true).actor.clip = none ∧
    (applyViewportClipActor ⟨95, 45, 0, 0, some (1, 2, 3, 4), 255⟩ ⟨95, 45, 410, 310⟩
        ⟨100, 50, 400, 300⟩ ⟨100, 50, 400, 300⟩ ⟨0, 1280⟩ 0 0 0 true).actor.translationX = 0 ∧
    (applyViewportClipActor ⟨95, 45, 0, 0, some (1, 2, 3, 4), 255⟩ ⟨95, 45, 410, 310⟩
        ⟨100, 50, 400, 300⟩ ⟨100, 50, 400, 300⟩ ⟨0, 1280⟩ 0 0 0 true).actor.translationY = 0 ∧
    (applyViewportClipActor ⟨95, 45, 0, 0, some (1, 2, 3, 4), 255⟩ ⟨95, 45, 410, 310⟩
        ⟨100, 50, 400, 300⟩ ⟨100, 50, 400, 300⟩ ⟨0, 1280⟩ 0 0 0 true).posX = flr ((100 : ℚ)) ∧
    (applyViewportClipActor ⟨95, 45, 0, 0, some (1, 2, 3, 4), 255⟩ ⟨95, 45, 410, 310⟩
        ⟨100, 50, 400, 300⟩ ⟨100, 50, 400, 300⟩ ⟨0, 1280⟩ 0 0 0 true).posY = (50 : ℚ) :=
  C1_applyViewportClip_noop ⟨95, 45, 0, 0, some (1, 2, 3, 4), 255⟩ ⟨95, 45, 410, 310⟩
    ⟨100, 50, 400, 300⟩ ⟨100, 50, 400, 300⟩ ⟨0, 1280⟩ 0 0 true
    (by norm_num [flr]) (by norm_num [flr])

/-- C10 witness: at a concrete window overlapping the viewport edge, the two
visibility predicates are not simultaneously true. -/
theorem C10_witness :
    (isWindowFullyVisible (some ⟨-100, 0, 400, 300⟩) ⟨0, 0, 1280, 720⟩ 0 &&
      isWindowPartiallyVisible (some ⟨-100, 0, 400, 300⟩) ⟨0, 0, 1280, 720⟩ 0) = false :=
  (C10_visibility_spec (some ⟨-100, 0, 400, 300⟩) ⟨0, 0, 1280, 720⟩ 0).1
